import Mathlib

/-!
Verification of the `analyze org` statistics aggregator of osdctl
(package `analyze`): a three-level grouped counter
(organization → cluster → alert name → count) with top-N queries,
percentage calculations, a regex-based organization filter, and an
output-format validation step.

Go maps (`map[string]T`) are embedded as association lists
(`List (String × T)`) with first-match lookup and replace-or-append
update; this matches Go map semantics on states built by the program,
where each key occurs at most once.  Go `int` fields are embedded as
`Int`.  Go `float32` results are embedded by `GoFloat`: a rational
together with the IEEE-754 special values NaN and ±Inf, with division
and comparison following IEEE semantics (x/0 is NaN when x = 0 and
±Inf otherwise; NaN compares false).  Two readings of the `Calculate*`
arithmetic are provided.  The ideal reading (`goDiv`, `mul100`) keeps
rationals exact; it agrees with the program wherever every
intermediate float32 value is exact, which holds at every value the
skip-percentage results turn on (20.0, NaN and ±Inf at a zero total,
the 0.3 threshold).  The bit-faithful reading (`goDivF32`,
`mul100F32`) rounds after the int-to-float32 conversions, the
division and the multiplication with `roundF32`, IEEE-754 binary32
round-to-nearest-even for values in the normal range; it is the one
used where rounding is observable, e.g. (float32(3)/float32(5))*100,
which is 60.000003814697265625 and not 60.

Go randomizes the iteration order of a map anew for every `range`
loop.  `sortedStats` therefore fixes only one possible order (the
association list's) for properties that are order-robust, while
`topOrgsOfItems` takes the per-call iteration sequence as an argument
so that order-dependent behavior (ties in `TopOrgs`) is quantified
over all permutations of the stored items.
-/

namespace Analyze

/-- Identity attributes of `accountsmgmtv1.Organization` used by the
analyzer: `ID()`, `Name()`, `EbsAccountID()`. -/
structure Organization where
  id : String
  name : String
  ebsAccountID : String
deriving DecidableEq, Repr

/-- Identity attributes of `clustersmgmtv1.Cluster` used by the
analyzer: `ID()`, `Name()`. -/
structure Cluster where
  id : String
  name : String
deriving DecidableEq, Repr

/-- Go map read `m[k]`: value of the first pair whose key is `k`. -/
def lookupA {α : Type} : List (String × α) → String → Option α
  | [], _ => none
  | (k', v) :: rest, k => if k' = k then some v else lookupA rest k

/-- Go map write `m[k] = v`: replace the value at the first occurrence
of `k`, or append `(k, v)` when `k` is absent. -/
def upsert {α : Type} (k : String) (v : α) : List (String × α) → List (String × α)
  | [] => [(k, v)]
  | (k', v') :: rest => if k' = k then (k, v) :: rest else (k', v') :: upsert k v rest

/-- Go declaration `type AlertStats map[string]int`. -/
def AlertStats : Type := List (String × Int)

instance : DecidableEq AlertStats := by
  unfold AlertStats
  infer_instance

/-- Go struct `ClusterStats` with fields `Cluster`, `TotalAlerts`,
`Alerts`. -/
structure ClusterStats where
  cluster : Cluster
  totalAlerts : Int
  alerts : AlertStats
deriving DecidableEq

/-- Constructor `NewClusterStats`: `TotalAlerts` is left at the Go zero value. -/
def NewClusterStats (cluster : Cluster) : ClusterStats :=
  { cluster := cluster, totalAlerts := 0, alerts := ([] : List (String × Int)) }

/-- Method `ClusterStats.AddStatistic`: increment `TotalAlerts`; set the
count for `alertName` to 1 when absent, otherwise increment it. -/
def ClusterStats.AddStatistic (c : ClusterStats) (alertName : String) : ClusterStats :=
  let c := { c with totalAlerts := c.totalAlerts + 1 }
  match lookupA c.alerts alertName with
  | none => { c with alerts := upsert alertName 1 c.alerts }
  | some v => { c with alerts := upsert alertName (v + 1) c.alerts }

/-- Go struct `OrganizationStats` with fields `Organization`,
`TotalAlerts`, `Clusters`. -/
structure OrganizationStats where
  organization : Organization
  totalAlerts : Int
  clusters : List (String × ClusterStats)
deriving DecidableEq

/-- Constructor `NewOrganizationStats`. -/
def NewOrganizationStats (org : Organization) : OrganizationStats :=
  { organization := org, totalAlerts := 0, clusters := [] }

/-- Method `OrganizationStats.AddStatistic`: increment `TotalAlerts`; look up
or create the `ClusterStats` for the cluster ID, add the alert to it,
and store it back. -/
def OrganizationStats.AddStatistic (o : OrganizationStats) (cluster : Cluster)
    (alert : String) : OrganizationStats :=
  let o := { o with totalAlerts := o.totalAlerts + 1 }
  let clusterStats :=
    match lookupA o.clusters cluster.id with
    | none => NewClusterStats cluster
    | some cs => cs
  let clusterStats := clusterStats.AddStatistic alert
  { o with clusters := upsert cluster.id clusterStats o.clusters }

/-- Go struct `OrganizationStatsList` with field `Items`. -/
structure OrganizationStatsList where
  items : List (String × OrganizationStats)
deriving DecidableEq

/-- Constructor `NewOrganizationStatsList`. -/
def NewOrganizationStatsList : OrganizationStatsList :=
  { items := [] }

/-- Method `OrganizationStatsList.AddStatistic`: look up or create the
`OrganizationStats` for the organization ID, add the statistic to it,
and store it back. -/
def OrganizationStatsList.AddStatistic (o : OrganizationStatsList)
    (org : Organization) (cluster : Cluster) (alert : String) : OrganizationStatsList :=
  let orgStats :=
    match lookupA o.items org.id with
    | none => NewOrganizationStats org
    | some os => os
  let orgStats := orgStats.AddStatistic cluster alert
  { o with items := upsert org.id orgStats o.items }

/-- Go struct `OrgAnalyzer`: the embedded stats list, the two entry
counters, and the three flag fields (`IOStreams` carries no analyzer
state and is omitted). -/
structure OrgAnalyzer where
  stats : OrganizationStatsList
  skippedEntries : Int
  totalEntries : Int
  output : String
  numOrgs : Int
  searchRegex : String
deriving DecidableEq

/-- Constructor `NewOrgAnalyzer`: only the stats list is initialized explicitly;
the rest are Go zero values (flag defaults are installed separately by
`NewCmdOrg`). -/
def NewOrgAnalyzer : OrgAnalyzer :=
  { stats := NewOrganizationStatsList, skippedEntries := 0, totalEntries := 0,
    output := "", numOrgs := 0, searchRegex := "" }

/-- Promoted method `o.AddStatistic(org, cluster, alert)` on the
analyzer: forwards to the embedded `OrganizationStatsList`. -/
def OrgAnalyzer.AddStatistic (o : OrgAnalyzer) (org : Organization)
    (cluster : Cluster) (alert : String) : OrgAnalyzer :=
  { o with stats := o.stats.AddStatistic org cluster alert }

/-- A Go `float32` value as produced by the analyzer: an exact
rational, NaN, or a signed infinity. -/
inductive GoFloat where
  | val (q : ℚ)
  | nan
  | inf
  | ninf
deriving DecidableEq, Repr

/-- Go float division of two numerators converted from `int`:
IEEE-754 gives NaN for 0/0 and a signed infinity for x/0, x ≠ 0. -/
def goDiv (a b : ℚ) : GoFloat :=
  if b = 0 then
    if a = 0 then GoFloat.nan
    else if 0 < a then GoFloat.inf
    else GoFloat.ninf
  else GoFloat.val (a / b)

/-- Multiplication of a Go float by the positive constant 100. -/
def GoFloat.mul100 : GoFloat → GoFloat
  | GoFloat.val q => GoFloat.val (q * 100)
  | GoFloat.nan => GoFloat.nan
  | GoFloat.inf => GoFloat.inf
  | GoFloat.ninf => GoFloat.ninf

/-- Go float comparison `x > c` for a rational constant `c`:
NaN compares false; +Inf is greater than every rational. -/
def GoFloat.gtConst : GoFloat → ℚ → Bool
  | GoFloat.val q, c => decide (c < q)
  | GoFloat.nan, _ => false
  | GoFloat.inf, _ => true
  | GoFloat.ninf, _ => false

/-- Round-to-nearest, ties-to-even, of a rational to an integer:
the rounding rule IEEE-754 applies to the scaled significand. -/
def rne (x : ℚ) : ℤ :=
  if x - (⌊x⌋ : ℚ) = 1 / 2 then (if Even ⌊x⌋ then ⌊x⌋ else ⌊x⌋ + 1) else round x

/-- IEEE-754 binary32 rounding of a positive rational in the normal
range: scale into the 24-bit significand of the value's binade, round
to nearest even, scale back. -/
def roundF32pos (q : ℚ) : ℚ :=
  (rne (q * (2 : ℚ) ^ ((23 : ℤ) - Int.log 2 q)) : ℚ) * (2 : ℚ) ^ (Int.log 2 q - 23)

/-- IEEE-754 binary32 round-to-nearest-even on rationals, exact for
every finite value in the normal range (overflow to ±Inf and
subnormal underflow are out of the analyzer's reach: its floats are
counts below 2^63 and their ratios times 100). -/
def roundF32 (q : ℚ) : ℚ :=
  if q = 0 then 0
  else if 0 < q then roundF32pos q
  else -roundF32pos (-q)

/-- Method `CalculateSkipPercentage`:
`(float32(o.SkippedEntries) / float32(o.TotalEntries)) * 100`, ideal
reading: rationals kept exact.  Used by the claims whose values are
exact in float32 (20.0 at 1 of 5 skipped, NaN and ±Inf at a zero
total); `CalculateSkipPercentageF32` makes the rounding explicit. -/
def OrgAnalyzer.CalculateSkipPercentage (o : OrgAnalyzer) : GoFloat :=
  (goDiv (o.skippedEntries : ℚ) (o.totalEntries : ℚ)).mul100

/-- Method `CalculatePercentageOfTotal`:
`(float32(count) / float32(o.TotalEntries)) * 100`, ideal reading:
rationals kept exact.  Where float32 rounding is observable (3 of 5
is 60.000004, not 60) use `CalculatePercentageOfTotalF32`. -/
def OrgAnalyzer.CalculatePercentageOfTotal (o : OrgAnalyzer) (count : Int) : GoFloat :=
  (goDiv (count : ℚ) (o.totalEntries : ℚ)).mul100

/-- Method `CalculatePercentageOfAnalyzed`:
`(float32(count) / float32(o.TotalEntries - o.SkippedEntries)) * 100`,
ideal reading; `CalculatePercentageOfAnalyzedF32` makes the rounding
explicit. -/
def OrgAnalyzer.CalculatePercentageOfAnalyzed (o : OrgAnalyzer) (count : Int) : GoFloat :=
  (goDiv (count : ℚ) ((o.totalEntries - o.skippedEntries : Int) : ℚ)).mul100

/-- Go float division with binary32 rounding of the quotient; the
special values for a zero divisor are as in `goDiv` (the operands are
already-rounded float32 values, so a zero divisor means the divisor
was exactly 0). -/
def goDivF32 (a b : ℚ) : GoFloat :=
  if b = 0 then
    if a = 0 then GoFloat.nan
    else if 0 < a then GoFloat.inf
    else GoFloat.ninf
  else GoFloat.val (roundF32 (a / b))

/-- Multiplication by the float32-exact constant 100 with binary32
rounding of the product. -/
def GoFloat.mul100F32 : GoFloat → GoFloat
  | GoFloat.val q => GoFloat.val (roundF32 (q * 100))
  | GoFloat.nan => GoFloat.nan
  | GoFloat.inf => GoFloat.inf
  | GoFloat.ninf => GoFloat.ninf

/-- Method `CalculateSkipPercentage`, bit-faithful float32 reading:
the int-to-float32 conversions, the division and the multiplication
each round to nearest even. -/
def OrgAnalyzer.CalculateSkipPercentageF32 (o : OrgAnalyzer) : GoFloat :=
  (goDivF32 (roundF32 (o.skippedEntries : ℚ)) (roundF32 (o.totalEntries : ℚ))).mul100F32

/-- Method `CalculatePercentageOfTotal`, bit-faithful float32
reading. -/
def OrgAnalyzer.CalculatePercentageOfTotalF32 (o : OrgAnalyzer) (count : Int) : GoFloat :=
  (goDivF32 (roundF32 (count : ℚ)) (roundF32 (o.totalEntries : ℚ))).mul100F32

/-- Method `CalculatePercentageOfAnalyzed`, bit-faithful float32
reading: the subtraction `o.TotalEntries - o.SkippedEntries` is Go
int arithmetic, exact; the conversion of its result rounds. -/
def OrgAnalyzer.CalculatePercentageOfAnalyzedF32 (o : OrgAnalyzer) (count : Int) : GoFloat :=
  (goDivF32 (roundF32 (count : ℚ))
    (roundF32 ((o.totalEntries - o.skippedEntries : Int) : ℚ))).mul100F32

/-- The guard `skipPercentage > 0.3` shared by `printShortSummary`
(line 245) and `printLongSummary` (line 264): exactly when it holds,
the red warning that results may be skewed is printed to the error
stream; the summary never aborts either way. -/
def OrgAnalyzer.showsSkewWarning (o : OrgAnalyzer) : Bool :=
  o.CalculateSkipPercentage.gtConst (3 / 10)

/-- The comparison `stats[i].TotalAlerts < stats[j].TotalAlerts`
passed to `sort.Slice` orders stats ascending by `TotalAlerts`; the
sorted order is any list sorted under this reflexive closure. -/
def statLE (a b : OrganizationStats) : Prop :=
  a.totalAlerts ≤ b.totalAlerts

instance : DecidableRel statLE :=
  fun a b => Int.decLe a.totalAlerts b.totalAlerts

instance : IsTotal OrganizationStats statLE :=
  ⟨fun a b => Int.le_total a.totalAlerts b.totalAlerts⟩

instance : IsTrans OrganizationStats statLE :=
  ⟨fun _ _ _ hab hbc => le_trans hab hbc⟩

/-- Lines 345-354 of `TopOrgs`: collect the map values into a slice
(in the iteration order the runtime draws for this `range` loop —
here fixed to the association list's order; Go randomizes it per
call) and sort the slice ascending by `TotalAlerts`. -/
def OrganizationStatsList.sortedStats (o : OrganizationStatsList) : List OrganizationStats :=
  List.insertionSort statLE (o.items.map Prod.snd)

/-- Method `OrganizationStatsList.TopOrgs`: after sorting ascending, return
everything when `numOrgs <= 0 || numOrgs > len(stats)`, otherwise the
slice `stats[len(stats)-numOrgs:]`. -/
def OrganizationStatsList.TopOrgs (o : OrganizationStatsList) (numOrgs : Int) :
    List OrganizationStats :=
  let stats := o.sortedStats
  if numOrgs ≤ 0 ∨ numOrgs > stats.length then stats
  else stats.drop (stats.length - numOrgs.toNat)

/-- The body of `TopOrgs` with the iteration sequence of the
`for _, orgStats := range o.Items` loop made an explicit argument:
one call's behavior for one order the runtime may draw.  Go
randomizes this order anew for every call, so cross-call properties
of `TopOrgs` quantify over all permutations of the stored items. -/
def topOrgsOfItems (items : List (String × OrganizationStats)) (numOrgs : Int) :
    List OrganizationStats :=
  if numOrgs ≤ 0 ∨
      numOrgs > ((List.insertionSort statLE (items.map Prod.snd)).length : Int) then
    List.insertionSort statLE (items.map Prod.snd)
  else
    (List.insertionSort statLE (items.map Prod.snd)).drop
      ((List.insertionSort statLE (items.map Prod.snd)).length - numOrgs.toNat)

/-- Same comparison for `ClusterStats` in `TopClusters`. -/
def clusterLE (a b : ClusterStats) : Prop :=
  a.totalAlerts ≤ b.totalAlerts

instance : DecidableRel clusterLE :=
  fun a b => Int.decLe a.totalAlerts b.totalAlerts

instance : IsTotal ClusterStats clusterLE :=
  ⟨fun a b => Int.le_total a.totalAlerts b.totalAlerts⟩

instance : IsTrans ClusterStats clusterLE :=
  ⟨fun _ _ _ hab hbc => le_trans hab hbc⟩

/-- Method `OrganizationStats.TopClusters`: collect and sort the cluster
stats ascending, then take the slice `stats[len(stats)-numClusters:]`
with no bounds check.  A Go slice expression `s[low:]` panics unless
`0 ≤ low ≤ len(s)`; `none` embeds that panic. -/
def OrganizationStats.TopClusters (o : OrganizationStats) (numClusters : Int) :
    Option (List ClusterStats) :=
  let stats := List.insertionSort clusterLE (o.clusters.map Prod.snd)
  let low : Int := (stats.length : Int) - numClusters
  if 0 ≤ low ∧ low ≤ (stats.length : Int) then some (stats.drop low.toNat)
  else none

/-- Function `validateAnalyzer`: the `switch o.Output` accepts exactly
`yaml`, `json`, `short`, `long`; anything else is an error. -/
def validateAnalyzer (o : OrgAnalyzer) : Option String :=
  if o.output = "yaml" ∨ o.output = "json" ∨ o.output = "short" ∨ o.output = "long" then
    none
  else
    some "invalid output format provided. Valid options are one of short, long, yaml, or json"

/-- The `RunE` closure of `NewCmdOrg` (lines 31-45), with the two
stateful stages passed in as functions: validate first, then
`Analyze`, then `Summarize`.  The returned flag records whether
`Analyze` was invoked; the returned analyzer is the state the run
ends with. -/
def runE (analyze : OrgAnalyzer → Except String OrgAnalyzer)
    (summarize : OrgAnalyzer → Except String Unit)
    (o : OrgAnalyzer) : (Except String OrgAnalyzer × Bool) :=
  match validateAnalyzer o with
  | some msg => (Except.error ("invalid argument provided: " ++ msg), false)
  | none =>
    match analyze o with
    | Except.error e => (Except.error ("encountered unrecoverable error while analyzing file: " ++ e), true)
    | Except.ok o1 =>
      match summarize o1 with
      | Except.error e => (Except.error ("unable to summarize statistics: " ++ e), true)
      | Except.ok _ => (Except.ok o1, true)

/-- One report entry as seen by the loop body of `Analyze` after the
external reads and OCM lookups: either one of the four fallible
stages failed, or the entry resolved to an organization, cluster and
alert name. -/
inductive EntryOutcome where
  | readErr
  | clusterErr
  | orgIDErr
  | orgErr
  | resolved (org : Organization) (cluster : Cluster) (alert : String)

/-- The body of the `for` loop of `Analyze` (lines 137-189) for one
entry.  `matcher s` stands for `regexp.MatchString(o.SearchRegex, s)`:
`Except.error ()` is a pattern-evaluation failure.  `TotalEntries` is
incremented for every entry; each failed stage increments
`SkippedEntries` and moves on; with a non-empty `SearchRegex`, a
matcher failure on the name or the ID counts as skipped, a clean
double non-match is dropped without counting, and otherwise the
statistic is added. -/
def processEntry (matcher : String → Except Unit Bool) (o : OrgAnalyzer)
    (e : EntryOutcome) : OrgAnalyzer :=
  let o := { o with totalEntries := o.totalEntries + 1 }
  match e with
  | EntryOutcome.readErr => { o with skippedEntries := o.skippedEntries + 1 }
  | EntryOutcome.clusterErr => { o with skippedEntries := o.skippedEntries + 1 }
  | EntryOutcome.orgIDErr => { o with skippedEntries := o.skippedEntries + 1 }
  | EntryOutcome.orgErr => { o with skippedEntries := o.skippedEntries + 1 }
  | EntryOutcome.resolved org cluster alert =>
    if o.searchRegex = "" then
      o.AddStatistic org cluster alert
    else
      match matcher org.name with
      | Except.error _ => { o with skippedEntries := o.skippedEntries + 1 }
      | Except.ok matchName =>
        match matcher org.id with
        | Except.error _ => { o with skippedEntries := o.skippedEntries + 1 }
        | Except.ok matchID =>
          if ¬matchName ∧ ¬matchID then o
          else o.AddStatistic org cluster alert

/-- The whole loop of `Analyze`: entries are processed in order and
the loop itself never returns an error (only the pre-loop file open
and OCM connection can). -/
def analyzeEntries (matcher : String → Except Unit Bool) (o : OrgAnalyzer)
    (entries : List EntryOutcome) : OrgAnalyzer :=
  entries.foldl (processEntry matcher) o

/-- A read-phase query against the analyzer, as named by the spec:
`TopOrganizations` or one of the `Calculate*` helpers. -/
inductive Query where
  | topOrgs (n : Int)
  | skipPercentage
  | percentageOfTotal (count : Int)
  | percentageOfAnalyzed (count : Int)

/-- The result a query prints or returns. -/
inductive QueryResult where
  | orgs (l : List OrganizationStats)
  | pct (x : GoFloat)
deriving DecidableEq

/-- Running one query: each of the four Go methods has a value
receiver and performs no map writes, so the analyzer handed to the
next call is the same state (`TopOrgs` appends the map values to a
fresh slice and sorts that slice only).  `iter` is the iteration
sequence the Go runtime draws for the `range` loop of this one
`TopOrgs` call — always a permutation of the stored items, fresh per
call; the `Calculate*` queries read only the two counters and use the
bit-faithful float32 arithmetic. -/
def runQueryIter (o : OrgAnalyzer) (iter : List (String × OrganizationStats)) :
    Query → (QueryResult × OrgAnalyzer)
  | Query.topOrgs n => (QueryResult.orgs (topOrgsOfItems iter n), o)
  | Query.skipPercentage => (QueryResult.pct o.CalculateSkipPercentageF32, o)
  | Query.percentageOfTotal c => (QueryResult.pct (o.CalculatePercentageOfTotalF32 c), o)
  | Query.percentageOfAnalyzed c =>
    (QueryResult.pct (o.CalculatePercentageOfAnalyzedF32 c), o)

/-- What a query's result determines independently of the map
iteration draw: the full float for a `Calculate*` query, and the
ascending `TotalAlerts` sequence for a `TopOrgs` query (the org
records themselves can differ on ties). -/
def QueryResult.observedTotals : QueryResult → (List Int ⊕ GoFloat)
  | QueryResult.orgs l => Sum.inl (l.map (fun x => x.totalAlerts))
  | QueryResult.pct x => Sum.inr x

/-- Sum of the `TotalAlerts` of the cluster stats in an organization's
cluster map. -/
def sumClusterTotals (l : List (String × ClusterStats)) : Int :=
  (l.map (fun p => p.2.totalAlerts)).sum

/-- Sum of the per-alert counts in an `AlertStats` map. -/
def sumAlertCounts (l : List (String × Int)) : Int :=
  (l.map (fun p => p.2)).sum

/-- A fresh aggregator followed by a sequence of `AddStatistic` calls,
one per (organization, cluster, alert) triple. -/
def applyAll (calls : List (Organization × Cluster × String)) : OrganizationStatsList :=
  calls.foldl (fun s c => s.AddStatistic c.1 c.2.1 c.2.2) NewOrganizationStatsList

/-- Concrete organization used by the spec's scenario. -/
def orgA : Organization := { id := "orgA", name := "Org A", ebsAccountID := "ebsA" }

/-- Concrete organization used by the spec's scenario. -/
def orgB : Organization := { id := "orgB", name := "Org B", ebsAccountID := "ebsB" }

/-- Concrete cluster used by the spec's scenario. -/
def clusterX : Cluster := { id := "clusterX", name := "Cluster X" }

/-- Concrete cluster used by the spec's scenario. -/
def clusterY : Cluster := { id := "clusterY", name := "Cluster Y" }

/-- Concrete cluster used by the spec's scenario. -/
def clusterZ : Cluster := { id := "clusterZ", name := "Cluster Z" }

theorem lookupA_upsert_self {α : Type} (k : String) (v : α) (l : List (String × α)) :
    lookupA (upsert k v l) k = some v := by
  induction l with
  | nil => simp [upsert, lookupA]
  | cons p rest ih =>
    obtain ⟨k', v'⟩ := p
    by_cases h : k' = k
    · simp [upsert, lookupA, h]
    · simp [upsert, lookupA, h, ih]

theorem lookupA_upsert_ne {α : Type} (k k₀ : String) (v : α) (l : List (String × α))
    (h : k₀ ≠ k) : lookupA (upsert k v l) k₀ = lookupA l k₀ := by
  induction l with
  | nil => simp [upsert, lookupA, Ne.symm h]
  | cons p rest ih =>
    obtain ⟨k', v'⟩ := p
    by_cases hk : k' = k
    · subst hk
      simp [upsert, lookupA, Ne.symm h]
    · simp [upsert, lookupA, hk]
      by_cases hk0 : k' = k₀ <;> simp [hk0, ih]

theorem mem_upsert {α : Type} (k : String) (v : α) (l : List (String × α))
    (p : String × α) (hp : p ∈ upsert k v l) : p = (k, v) ∨ p ∈ l := by
  induction l with
  | nil => simpa [upsert] using hp
  | cons q rest ih =>
    obtain ⟨k', v'⟩ := q
    by_cases h : k' = k
    · simp [upsert, h] at hp
      rcases hp with hp | hp
      · exact Or.inl hp
      · exact Or.inr (List.mem_cons_of_mem _ hp)
    · simp [upsert, h] at hp
      rcases hp with hp | hp
      · exact Or.inr (by simp [hp])
      · rcases ih hp with h1 | h1
        · exact Or.inl h1
        · exact Or.inr (List.mem_cons_of_mem _ h1)

theorem lookupA_mem {α : Type} (l : List (String × α)) (k : String) (v : α)
    (h : lookupA l k = some v) : (k, v) ∈ l := by
  induction l with
  | nil => simp [lookupA] at h
  | cons p rest ih =>
    obtain ⟨k', v'⟩ := p
    by_cases hk : k' = k
    · subst hk
      simp [lookupA] at h
      simp [h]
    · simp [lookupA, hk] at h
      exact List.mem_cons_of_mem _ (ih h)

theorem sumAlertCounts_upsert_found (l : List (String × Int)) (k : String) (v w : Int)
    (h : lookupA l k = some v) :
    sumAlertCounts (upsert k w l) = sumAlertCounts l - v + w := by
  induction l with
  | nil => simp [lookupA] at h
  | cons p rest ih =>
    obtain ⟨k', v'⟩ := p
    by_cases hk : k' = k
    · subst hk
      simp [lookupA] at h
      subst h
      simp [upsert, sumAlertCounts]
      ring
    · simp [lookupA, hk] at h
      simp [upsert, hk, sumAlertCounts] at ih ⊢
      rw [ih h]
      ring

theorem sumAlertCounts_upsert_none (l : List (String × Int)) (k : String) (w : Int)
    (h : lookupA l k = none) :
    sumAlertCounts (upsert k w l) = sumAlertCounts l + w := by
  induction l with
  | nil => simp [upsert, sumAlertCounts]
  | cons p rest ih =>
    obtain ⟨k', v'⟩ := p
    by_cases hk : k' = k
    · subst hk
      simp [lookupA] at h
    · simp [lookupA, hk] at h
      simp [upsert, hk, sumAlertCounts] at ih ⊢
      rw [ih h]
      ring

theorem sumClusterTotals_upsert_found (l : List (String × ClusterStats)) (k : String)
    (v w : ClusterStats) (h : lookupA l k = some v) :
    sumClusterTotals (upsert k w l) = sumClusterTotals l - v.totalAlerts + w.totalAlerts := by
  induction l with
  | nil => simp [lookupA] at h
  | cons p rest ih =>
    obtain ⟨k', v'⟩ := p
    by_cases hk : k' = k
    · subst hk
      simp [lookupA] at h
      subst h
      simp [upsert, sumClusterTotals]
      ring
    · simp [lookupA, hk] at h
      simp [upsert, hk, sumClusterTotals] at ih ⊢
      rw [ih h]
      ring

theorem sumClusterTotals_upsert_none (l : List (String × ClusterStats)) (k : String)
    (w : ClusterStats) (h : lookupA l k = none) :
    sumClusterTotals (upsert k w l) = sumClusterTotals l + w.totalAlerts := by
  induction l with
  | nil => simp [upsert, sumClusterTotals]
  | cons p rest ih =>
    obtain ⟨k', v'⟩ := p
    by_cases hk : k' = k
    · subst hk
      simp [lookupA] at h
    · simp [lookupA, hk] at h
      simp [upsert, hk, sumClusterTotals] at ih ⊢
      rw [ih h]
      ring

/-- Invariant of a cluster record: its total equals the sum of its
per-alert counts. -/
def ClusterStats.WF (c : ClusterStats) : Prop :=
  c.totalAlerts = sumAlertCounts c.alerts

/-- Invariant of an organization record: its total equals the sum of
its clusters' totals, and every cluster record is itself coherent. -/
def OrganizationStats.WF (o : OrganizationStats) : Prop :=
  o.totalAlerts = sumClusterTotals o.clusters ∧ ∀ p ∈ o.clusters, ClusterStats.WF p.2

/-- Invariant of the whole stats list: every organization record is
coherent. -/
def OrganizationStatsList.WF (s : OrganizationStatsList) : Prop :=
  ∀ p ∈ s.items, OrganizationStats.WF p.2

theorem clusterAddStatistic_eq (c : ClusterStats) (alert : String) :
    c.AddStatistic alert =
      { c with totalAlerts := c.totalAlerts + 1,
               alerts := upsert alert ((lookupA c.alerts alert).getD 0 + 1) c.alerts } := by
  unfold ClusterStats.AddStatistic
  cases h : lookupA c.alerts alert <;> simp [h]

theorem orgAddStatistic_eq (o : OrganizationStats) (cluster : Cluster)
    (alert : String) :
    o.AddStatistic cluster alert =
      { o with totalAlerts := o.totalAlerts + 1,
               clusters := upsert cluster.id
                 (((lookupA o.clusters cluster.id).getD
                   (NewClusterStats cluster)).AddStatistic alert)
                 o.clusters } := by
  unfold OrganizationStats.AddStatistic
  cases h : lookupA o.clusters cluster.id <;> simp [h]

theorem listAddStatistic_eq (s : OrganizationStatsList)
    (org : Organization) (cluster : Cluster) (alert : String) :
    s.AddStatistic org cluster alert =
      { s with items := upsert org.id
                 (((lookupA s.items org.id).getD
                   (NewOrganizationStats org)).AddStatistic cluster alert)
                 s.items } := by
  unfold OrganizationStatsList.AddStatistic
  cases h : lookupA s.items org.id <;> simp [h]

theorem NewClusterStats_WF (cluster : Cluster) : (NewClusterStats cluster).WF := by
  simp [NewClusterStats, ClusterStats.WF, sumAlertCounts]

theorem clusterAddStatistic_WF (c : ClusterStats) (alert : String) (h : c.WF) :
    (c.AddStatistic alert).WF := by
  rw [ClusterStats.WF, clusterAddStatistic_eq]
  cases hl : lookupA c.alerts alert with
  | none =>
    simp only [Option.getD]
    rw [ClusterStats.WF] at h
    simp [sumAlertCounts_upsert_none _ _ _ hl, h]
  | some v =>
    simp only [Option.getD]
    rw [ClusterStats.WF] at h
    simp [sumAlertCounts_upsert_found _ _ _ _ hl, h]
    ring

theorem clusterAddStatistic_totalAlerts (c : ClusterStats) (alert : String) :
    (c.AddStatistic alert).totalAlerts = c.totalAlerts + 1 := by
  rw [clusterAddStatistic_eq]

theorem NewOrganizationStats_WF (org : Organization) : (NewOrganizationStats org).WF := by
  constructor
  · simp [NewOrganizationStats, sumClusterTotals]
  · intro p hp
    simp [NewOrganizationStats] at hp

theorem orgAddStatistic_WF (o : OrganizationStats) (cluster : Cluster)
    (alert : String) (h : o.WF) : (o.AddStatistic cluster alert).WF := by
  obtain ⟨htot, hclusters⟩ := h
  rw [orgAddStatistic_eq]
  cases hl : lookupA o.clusters cluster.id with
  | none =>
    constructor
    · simp only [Option.getD]
      rw [sumClusterTotals_upsert_none _ _ _ hl, clusterAddStatistic_totalAlerts]
      simp [NewClusterStats, htot]
    · intro p hp
      simp only [Option.getD] at hp
      rcases mem_upsert _ _ _ _ hp with h1 | h1
      · subst h1
        exact clusterAddStatistic_WF _ _ (NewClusterStats_WF cluster)
      · exact hclusters p h1
  | some cs =>
    constructor
    · simp only [Option.getD]
      rw [sumClusterTotals_upsert_found _ _ _ _ hl, clusterAddStatistic_totalAlerts]
      rw [htot]
      ring
    · intro p hp
      simp only [Option.getD] at hp
      rcases mem_upsert _ _ _ _ hp with h1 | h1
      · subst h1
        exact clusterAddStatistic_WF _ _ (hclusters _ (lookupA_mem _ _ _ hl))
      · exact hclusters p h1

theorem listAddStatistic_WF (s : OrganizationStatsList)
    (org : Organization) (cluster : Cluster) (alert : String) (h : s.WF) :
    (s.AddStatistic org cluster alert).WF := by
  intro p hp
  rw [listAddStatistic_eq] at hp
  cases hl : lookupA s.items org.id with
  | none =>
    rw [hl] at hp
    simp only [Option.getD] at hp
    rcases mem_upsert _ _ _ _ hp with h1 | h1
    · subst h1
      exact orgAddStatistic_WF _ _ _ (NewOrganizationStats_WF org)
    · exact h p h1
  | some os =>
    rw [hl] at hp
    simp only [Option.getD] at hp
    rcases mem_upsert _ _ _ _ hp with h1 | h1
    · subst h1
      exact orgAddStatistic_WF _ _ _ (h _ (lookupA_mem _ _ _ hl))
    · exact h p h1

theorem applyAll_WF (calls : List (Organization × Cluster × String)) :
    (applyAll calls).WF := by
  unfold applyAll
  have hfresh : NewOrganizationStatsList.WF := by
    intro p hp
    simp [NewOrganizationStatsList] at hp
  generalize NewOrganizationStatsList = s at hfresh ⊢
  induction calls generalizing s with
  | nil => exact hfresh
  | cons c rest ih =>
    exact ih _ (listAddStatistic_WF _ _ _ _ hfresh)

/-- The spec's scenario: ingest the four triples of §8 into a fresh
analyzer, then set the entry counters externally to
`totalEntries = 5`, `skippedEntries = 1`. -/
def scenarioAnalyzer : OrgAnalyzer :=
  let a := NewOrgAnalyzer
  let a := a.AddStatistic orgA clusterX "AlertFoo"
  let a := a.AddStatistic orgA clusterX "AlertFoo"
  let a := a.AddStatistic orgA clusterY "AlertBar"
  let a := a.AddStatistic orgB clusterZ "AlertFoo"
  { a with totalEntries := 5, skippedEntries := 1 }

/-- Expected cluster-X record after the scenario. -/
def csX2 : ClusterStats :=
  { cluster := clusterX, totalAlerts := 2, alerts := [("AlertFoo", 2)] }

/-- Expected organization-A record after the scenario. -/
def osA3 : OrganizationStats :=
  { organization := orgA, totalAlerts := 3,
    clusters := [("clusterX", csX2),
                 ("clusterY", { cluster := clusterY, totalAlerts := 1,
                                alerts := [("AlertBar", 1)] })] }

/-- Expected organization-B record after the scenario. -/
def osB1 : OrganizationStats :=
  { organization := orgB, totalAlerts := 1,
    clusters := [("clusterZ", { cluster := clusterZ, totalAlerts := 1,
                                alerts := [("AlertFoo", 1)] })] }

/-- C1: After every finite sequence of `AddStatistic` calls starting
from a fresh aggregator, every `OrganizationStats` has `TotalAlerts`
equal to the sum of `TotalAlerts` over its child `ClusterStats`, and
every `ClusterStats` has `TotalAlerts` equal to the sum of the
integer counts in its `AlertStats` mapping. -/
theorem C1_aggregation_invariant (calls : List (Organization × Cluster × String)) :
    ∀ p ∈ (applyAll calls).items,
      p.2.totalAlerts = sumClusterTotals p.2.clusters ∧
      ∀ q ∈ p.2.clusters, q.2.totalAlerts = sumAlertCounts q.2.alerts := by
  intro p hp
  obtain ⟨h1, h2⟩ := applyAll_WF calls p hp
  exact ⟨h1, fun q hq => h2 q hq⟩

/-- Closed instance of C1 on the spec's four-call scenario. -/
theorem C1_aggregation_invariant_witness :
    ("orgA", osA3) ∈ (applyAll [(orgA, clusterX, "AlertFoo"), (orgA, clusterX, "AlertFoo"),
        (orgA, clusterY, "AlertBar"), (orgB, clusterZ, "AlertFoo")]).items ∧
      (osA3.totalAlerts = sumClusterTotals osA3.clusters ∧
       ∀ q ∈ osA3.clusters, q.2.totalAlerts = sumAlertCounts q.2.alerts) :=
  ⟨by decide,
   C1_aggregation_invariant [(orgA, clusterX, "AlertFoo"), (orgA, clusterX, "AlertFoo"),
       (orgA, clusterY, "AlertBar"), (orgB, clusterZ, "AlertFoo")] ("orgA", osA3) (by decide)⟩

theorem intLog2_eq (q : ℚ) (e : ℤ) (h0 : 0 < q) (h1 : (2:ℚ)^e ≤ q)
    (h2 : q < (2:ℚ)^(e+1)) : Int.log 2 q = e := by
  have ha : e ≤ Int.log 2 q := (Int.zpow_le_iff_le_log one_lt_two h0).mp (by exact_mod_cast h1)
  have hc : Int.log 2 q < e + 1 :=
    (Int.lt_zpow_iff_log_lt one_lt_two h0).mp (by exact_mod_cast h2)
  omega

theorem roundF32_eval (q : ℚ) (e : ℤ) (h0 : 0 < q) (h1 : (2:ℚ)^e ≤ q)
    (h2 : q < (2:ℚ)^(e+1)) :
    roundF32 q = (rne (q * (2:ℚ)^((23:ℤ) - e)) : ℚ) * (2:ℚ)^(e - 23) := by
  rw [roundF32, if_neg h0.ne', if_pos h0, roundF32pos, intLog2_eq q e h0 h1 h2]

theorem rne_eq_of_lt_half (x : ℚ) (z : ℤ) (h1 : (z:ℚ) ≤ x) (h2 : x - z < 1/2) :
    rne x = z := by
  have hf : ⌊x⌋ = z := Int.floor_eq_iff.mpr ⟨h1, by linarith⟩
  rw [rne, hf, if_neg (by intro h; rw [h] at h2; norm_num at h2), round_eq]
  exact Int.floor_eq_iff.mpr ⟨by linarith, by linarith⟩

theorem rne_eq_of_gt_half (x : ℚ) (z : ℤ) (h1 : 1/2 < x - z) (h2 : x < (z:ℚ) + 1) :
    rne x = z + 1 := by
  have hf : ⌊x⌋ = z := Int.floor_eq_iff.mpr ⟨by linarith, h2⟩
  rw [rne, hf, if_neg (by intro h; rw [h] at h1; norm_num at h1), round_eq]
  exact Int.floor_eq_iff.mpr ⟨by push_cast; linarith, by push_cast; linarith⟩

theorem roundF32_one : roundF32 1 = 1 := by
  rw [roundF32_eval 1 0 (by norm_num) (by norm_num) (by norm_num)]
  rw [show ((23:ℤ) - 0) = 23 by norm_num, show ((0:ℤ) - 23) = -23 by norm_num]
  rw [rne_eq_of_lt_half ((1:ℚ) * (2:ℚ)^(23:ℤ)) 8388608 (by norm_num) (by norm_num)]
  norm_num

theorem roundF32_three : roundF32 3 = 3 := by
  rw [roundF32_eval 3 1 (by norm_num) (by norm_num) (by norm_num)]
  rw [show ((23:ℤ) - 1) = 22 by norm_num, show ((1:ℤ) - 23) = -22 by norm_num]
  rw [rne_eq_of_lt_half ((3:ℚ) * (2:ℚ)^(22:ℤ)) 12582912 (by norm_num) (by norm_num)]
  norm_num

theorem roundF32_four : roundF32 4 = 4 := by
  rw [roundF32_eval 4 2 (by norm_num) (by norm_num) (by norm_num)]
  rw [show ((23:ℤ) - 2) = 21 by norm_num, show ((2:ℤ) - 23) = -21 by norm_num]
  rw [rne_eq_of_lt_half ((4:ℚ) * (2:ℚ)^(21:ℤ)) 8388608 (by norm_num) (by norm_num)]
  norm_num

theorem roundF32_five : roundF32 5 = 5 := by
  rw [roundF32_eval 5 2 (by norm_num) (by norm_num) (by norm_num)]
  rw [show ((23:ℤ) - 2) = 21 by norm_num, show ((2:ℤ) - 23) = -21 by norm_num]
  rw [rne_eq_of_lt_half ((5:ℚ) * (2:ℚ)^(21:ℤ)) 10485760 (by norm_num) (by norm_num)]
  norm_num

theorem roundF32_oneFifth : roundF32 (1/5 : ℚ) = 13421773/67108864 := by
  rw [roundF32_eval (1/5) (-3) (by norm_num) (by norm_num) (by norm_num)]
  rw [show ((23:ℤ) - (-3)) = 26 by norm_num, show ((-3:ℤ) - 23) = -26 by norm_num]
  rw [rne_eq_of_gt_half ((1:ℚ)/5 * (2:ℚ)^(26:ℤ)) 13421772 (by norm_num) (by norm_num)]
  norm_num

theorem roundF32_threeFifths : roundF32 (3/5 : ℚ) = 5033165/8388608 := by
  rw [roundF32_eval (3/5) (-1) (by norm_num) (by norm_num) (by norm_num)]
  rw [show ((23:ℤ) - (-1)) = 24 by norm_num, show ((-1:ℤ) - 23) = -24 by norm_num]
  rw [rne_eq_of_gt_half ((3:ℚ)/5 * (2:ℚ)^(24:ℤ)) 10066329 (by norm_num) (by norm_num)]
  norm_num

theorem roundF32_threeQuarters : roundF32 (3/4 : ℚ) = 3/4 := by
  rw [roundF32_eval (3/4) (-1) (by norm_num) (by norm_num) (by norm_num)]
  rw [show ((23:ℤ) - (-1)) = 24 by norm_num, show ((-1:ℤ) - 23) = -24 by norm_num]
  rw [rne_eq_of_lt_half ((3:ℚ)/4 * (2:ℚ)^(24:ℤ)) 12582912 (by norm_num) (by norm_num)]
  norm_num

theorem roundF32_skipPct : roundF32 ((13421773:ℚ)/67108864 * 100) = 20 := by
  rw [roundF32_eval ((13421773:ℚ)/67108864 * 100) 4 (by norm_num) (by norm_num) (by norm_num)]
  rw [show ((23:ℤ) - 4) = 19 by norm_num, show ((4:ℤ) - 23) = -19 by norm_num]
  rw [rne_eq_of_lt_half ((13421773:ℚ)/67108864 * 100 * (2:ℚ)^(19:ℤ)) 10485760
    (by norm_num) (by norm_num)]
  norm_num

theorem roundF32_totalPct : roundF32 ((5033165:ℚ)/8388608 * 100) = 15728641/262144 := by
  rw [roundF32_eval ((5033165:ℚ)/8388608 * 100) 5 (by norm_num) (by norm_num) (by norm_num)]
  rw [show ((23:ℤ) - 5) = 18 by norm_num, show ((5:ℤ) - 23) = -18 by norm_num]
  rw [rne_eq_of_gt_half ((5033165:ℚ)/8388608 * 100 * (2:ℚ)^(18:ℤ)) 15728640
    (by norm_num) (by norm_num)]
  norm_num

theorem roundF32_analyzedPct : roundF32 ((3:ℚ)/4 * 100) = 75 := by
  rw [roundF32_eval ((3:ℚ)/4 * 100) 6 (by norm_num) (by norm_num) (by norm_num)]
  rw [show ((23:ℤ) - 6) = 17 by norm_num, show ((6:ℤ) - 23) = -17 by norm_num]
  rw [rne_eq_of_lt_half ((3:ℚ)/4 * 100 * (2:ℚ)^(17:ℤ)) 9830400 (by norm_num) (by norm_num)]
  norm_num

theorem scenario_skipPctF32 :
    scenarioAnalyzer.CalculateSkipPercentageF32 = GoFloat.val 20 := by
  show (goDivF32 (roundF32 ((1 : Int) : ℚ)) (roundF32 ((5 : Int) : ℚ))).mul100F32 =
    GoFloat.val 20
  rw [show ((1 : Int) : ℚ) = 1 by norm_num, show ((5 : Int) : ℚ) = 5 by norm_num,
    roundF32_one, roundF32_five]
  simp only [goDivF32]
  rw [if_neg (show ¬(5:ℚ) = 0 by norm_num), roundF32_oneFifth]
  simp only [GoFloat.mul100F32]
  rw [roundF32_skipPct]

theorem scenario_totalPctF32 :
    scenarioAnalyzer.CalculatePercentageOfTotalF32 3 = GoFloat.val (15728641/262144) := by
  show (goDivF32 (roundF32 ((3 : Int) : ℚ)) (roundF32 ((5 : Int) : ℚ))).mul100F32 =
    GoFloat.val (15728641/262144)
  rw [show ((3 : Int) : ℚ) = 3 by norm_num, show ((5 : Int) : ℚ) = 5 by norm_num,
    roundF32_three, roundF32_five]
  simp only [goDivF32]
  rw [if_neg (show ¬(5:ℚ) = 0 by norm_num), roundF32_threeFifths]
  simp only [GoFloat.mul100F32]
  rw [roundF32_totalPct]

theorem scenario_analyzedPctF32 :
    scenarioAnalyzer.CalculatePercentageOfAnalyzedF32 3 = GoFloat.val 75 := by
  show (goDivF32 (roundF32 ((3 : Int) : ℚ)) (roundF32 ((5 - 1 : Int) : ℚ))).mul100F32 =
    GoFloat.val 75
  rw [show ((3 : Int) : ℚ) = 3 by norm_num, show ((5 - 1 : Int) : ℚ) = 4 by norm_num,
    roundF32_three, roundF32_four]
  simp only [goDivF32]
  rw [if_neg (show ¬(4:ℚ) = 0 by norm_num), roundF32_threeQuarters]
  simp only [GoFloat.mul100F32]
  rw [roundF32_analyzedPct]

/-- C6 counterexample: on the scenario state the program computes
`CalculatePercentageOfTotal(3)` as `(float32(3)/float32(5))*100`;
binary32 rounding of the division and the multiplication yields
15728641/262144 = 60.000003814697265625, one ulp above 60, so the
result is not 60.0 as the claim expects. -/
theorem C6_pctTotal_not_sixty :
    scenarioAnalyzer.CalculatePercentageOfTotalF32 3 =
        GoFloat.val (15728641/262144) ∧
      scenarioAnalyzer.CalculatePercentageOfTotalF32 3 ≠ GoFloat.val 60 := by
  refine ⟨scenario_totalPctF32, ?_⟩
  rw [scenario_totalPctF32]
  intro hc
  have h := GoFloat.val.inj hc
  norm_num at h

/-- C6 (amended): the spec's scenario yields `orgA.TotalAlerts = 3`,
an "AlertFoo" count of 2 on cluster X of organization A,
`orgB.TotalAlerts = 1`, `CalculateSkipPercentage() = 20.0` and
`CalculatePercentageOfAnalyzed(3) = 75.0` exactly (their float32
computations are exact), and `CalculatePercentageOfTotal(3) =
60.000003814697265625`, the binary32 value one ulp above 60, rather
than 60.0. -/
theorem C6_scenario_values_float32 :
    lookupA scenarioAnalyzer.stats.items "orgA" = some osA3 ∧
    osA3.totalAlerts = 3 ∧
    lookupA osA3.clusters "clusterX" = some csX2 ∧
    lookupA csX2.alerts "AlertFoo" = some 2 ∧
    lookupA scenarioAnalyzer.stats.items "orgB" = some osB1 ∧
    osB1.totalAlerts = 1 ∧
    scenarioAnalyzer.CalculateSkipPercentageF32 = GoFloat.val 20 ∧
    scenarioAnalyzer.CalculatePercentageOfTotalF32 3 = GoFloat.val (15728641/262144) ∧
    (15728641/262144 : ℚ) = 60 + 1/262144 ∧
    scenarioAnalyzer.CalculatePercentageOfAnalyzedF32 3 = GoFloat.val 75 :=
  ⟨by decide, by decide, by decide, by decide, by decide, by decide,
   scenario_skipPctF32, scenario_totalPctF32, by norm_num, scenario_analyzedPctF32⟩

/-- C10: `AddStatistic(org, cluster, alert)` leaves every other
organization unchanged, every other cluster of `org` unchanged, every
other alert count of that cluster unchanged, and does not touch
`TotalEntries` or `SkippedEntries`. -/
theorem C10_addStatistic_frame (a : OrgAnalyzer) (org : Organization)
    (cluster : Cluster) (alert : String) :
    (a.AddStatistic org cluster alert).totalEntries = a.totalEntries ∧
    (a.AddStatistic org cluster alert).skippedEntries = a.skippedEntries ∧
    (∀ k, k ≠ org.id →
      lookupA (a.AddStatistic org cluster alert).stats.items k = lookupA a.stats.items k) ∧
    (∀ os, lookupA a.stats.items org.id = some os →
      ∃ os', lookupA (a.AddStatistic org cluster alert).stats.items org.id = some os' ∧
        (∀ ck, ck ≠ cluster.id → lookupA os'.clusters ck = lookupA os.clusters ck) ∧
        (∀ cs, lookupA os.clusters cluster.id = some cs →
          ∃ cs', lookupA os'.clusters cluster.id = some cs' ∧
            ∀ al, al ≠ alert → lookupA cs'.alerts al = lookupA cs.alerts al)) := by
  refine ⟨rfl, rfl, ?_, ?_⟩
  · intro k hk
    show lookupA (a.stats.AddStatistic org cluster alert).items k = lookupA a.stats.items k
    rw [listAddStatistic_eq]
    exact lookupA_upsert_ne _ _ _ _ hk
  · intro os hos
    refine ⟨os.AddStatistic cluster alert, ?_, ?_, ?_⟩
    · show lookupA (a.stats.AddStatistic org cluster alert).items org.id = _
      rw [listAddStatistic_eq]
      simp only [hos, Option.getD]
      exact lookupA_upsert_self _ _ _
    · intro ck hck
      rw [orgAddStatistic_eq]
      exact lookupA_upsert_ne _ _ _ _ hck
    · intro cs hcs
      refine ⟨cs.AddStatistic alert, ?_, ?_⟩
      · rw [orgAddStatistic_eq]
        simp only [hcs, Option.getD]
        exact lookupA_upsert_self _ _ _
      · intro al hal
        rw [clusterAddStatistic_eq]
        exact lookupA_upsert_ne _ _ _ _ hal

/-- Closed instance of C10 on the scenario state: adding an "AlertFoo"
for organization A on cluster X changes neither organization B, nor
cluster Y of organization A, nor the "AlertBar"-free alert slots, nor
the counters. -/
theorem C10_addStatistic_frame_witness :
    (scenarioAnalyzer.AddStatistic orgA clusterX "AlertFoo").totalEntries =
        scenarioAnalyzer.totalEntries ∧
      lookupA (scenarioAnalyzer.AddStatistic orgA clusterX "AlertFoo").stats.items "orgB" =
        lookupA scenarioAnalyzer.stats.items "orgB" :=
  ⟨(C10_addStatistic_frame scenarioAnalyzer orgA clusterX "AlertFoo").1,
   (C10_addStatistic_frame scenarioAnalyzer orgA clusterX "AlertFoo").2.2.1 "orgB" (by decide)⟩

/-- An analyzer whose counters were never advanced past zero except
the skip counter: `totalEntries = 0`, `skippedEntries = 1`. -/
def zeroTotalAnalyzer : OrgAnalyzer :=
  { NewOrgAnalyzer with skippedEntries := 1 }

/-- An analyzer with `skippedEntries = 1`, `totalEntries = 5`:
a 20 percent skip rate. -/
def skewAnalyzer : OrgAnalyzer :=
  { NewOrgAnalyzer with skippedEntries := 1, totalEntries := 5 }

/-- C4 counterexample: with `totalEntries = 0` and
`skippedEntries = 1`, `CalculateSkipPercentage` returns +Inf
(`float32(1)/float32(0)` in IEEE-754), not NaN. -/
theorem C4_zero_total_not_nan :
    zeroTotalAnalyzer.totalEntries = 0 ∧
    zeroTotalAnalyzer.CalculateSkipPercentage = GoFloat.inf ∧
    zeroTotalAnalyzer.CalculateSkipPercentage ≠ GoFloat.nan := by
  refine ⟨rfl, ?_, ?_⟩
  · show (goDiv ((1 : Int) : ℚ) ((0 : Int) : ℚ)).mul100 = GoFloat.inf
    norm_num [goDiv, GoFloat.mul100]
  · show (goDiv ((1 : Int) : ℚ) ((0 : Int) : ℚ)).mul100 ≠ GoFloat.nan
    norm_num [goDiv, GoFloat.mul100]
    exact fun h => GoFloat.noConfusion h

/-- C4 (amended): with `totalEntries ≠ 0`, `CalculateSkipPercentage`
returns `skippedEntries / totalEntries * 100`; with
`totalEntries = 0` it returns NaN when `skippedEntries = 0` (the only
state reachable by `Analyze`, which increments the total before ever
incrementing the skip counter) and a signed infinity otherwise; in
every case it returns a value rather than raising an error. -/
theorem C4_skip_percentage_cases (o : OrgAnalyzer) :
    (o.totalEntries ≠ 0 →
      o.CalculateSkipPercentage =
        GoFloat.val ((o.skippedEntries : ℚ) / (o.totalEntries : ℚ) * 100)) ∧
    (o.totalEntries = 0 → o.skippedEntries = 0 →
      o.CalculateSkipPercentage = GoFloat.nan) ∧
    (o.totalEntries = 0 → 0 < o.skippedEntries →
      o.CalculateSkipPercentage = GoFloat.inf) ∧
    (o.totalEntries = 0 → o.skippedEntries < 0 →
      o.CalculateSkipPercentage = GoFloat.ninf) := by
  unfold OrgAnalyzer.CalculateSkipPercentage goDiv
  refine ⟨?_, ?_, ?_, ?_⟩
  · intro h
    rw [if_neg (by exact_mod_cast h)]
    rfl
  · intro h h2
    rw [if_pos (by exact_mod_cast h), if_pos (by exact_mod_cast h2)]
    rfl
  · intro h h2
    rw [if_pos (by exact_mod_cast h), if_neg (by exact_mod_cast h2.ne.symm),
      if_pos (by exact_mod_cast h2)]
    rfl
  · intro h h2
    rw [if_pos (by exact_mod_cast h), if_neg (by exact_mod_cast h2.ne),
      if_neg (by simpa using h2.not_lt.imp fun h3 => h3)]
    rfl

/-- Closed instance of C4: the nonzero-total formula at 1 skipped of
5, and NaN on the all-zero fresh analyzer. -/
theorem C4_skip_percentage_cases_witness :
    skewAnalyzer.CalculateSkipPercentage =
        GoFloat.val (((1 : Int) : ℚ) / ((5 : Int) : ℚ) * 100) ∧
      NewOrgAnalyzer.CalculateSkipPercentage = GoFloat.nan :=
  ⟨(C4_skip_percentage_cases skewAnalyzer).1 (by decide),
   (C4_skip_percentage_cases NewOrgAnalyzer).2.1 rfl rfl⟩

/-- C3: the summaries print the skewed-results warning exactly when
`CalculateSkipPercentage() > 0.3` holds — but that value is a 0-to-100
percentage, so the warning fires from 0.3 percent upward, not from
the 30 percent the spec designed: at 1 skipped entry of 5 (20
percent, shown as `20.00 percent` by the same function) the warning
is printed even though 20 percent is below the documented 30 percent
threshold.  The run is not aborted either way (the print functions
return nothing). -/
theorem C3_skew_warning_threshold_bug :
    skewAnalyzer.CalculateSkipPercentage = GoFloat.val 20 ∧
    skewAnalyzer.showsSkewWarning = true ∧
    GoFloat.gtConst (GoFloat.val 20) 30 = false := by
  have h : skewAnalyzer.CalculateSkipPercentage = GoFloat.val 20 := by
    show (goDiv ((1 : Int) : ℚ) ((5 : Int) : ℚ)).mul100 = GoFloat.val 20
    norm_num [goDiv, GoFloat.mul100]
  refine ⟨h, ?_, ?_⟩
  · rw [OrgAnalyzer.showsSkewWarning, h]
    norm_num [GoFloat.gtConst]
  · norm_num [GoFloat.gtConst]

/-- C7: for any output value other than `short`, `long`, `yaml`,
`json`, the command run fails with a configuration error before
`Analyze` is invoked: the returned flag is false and the result is
the same error for every possible `Analyze` and `Summarize`
behavior, so no report entry is read and no aggregator state is
modified. -/
theorem C7_invalid_output_fails_early (o : OrgAnalyzer)
    (analyze : OrgAnalyzer → Except String OrgAnalyzer)
    (summarize : OrgAnalyzer → Except String Unit)
    (h1 : o.output ≠ "short") (h2 : o.output ≠ "long")
    (h3 : o.output ≠ "yaml") (h4 : o.output ≠ "json") :
    runE analyze summarize o =
      (Except.error ("invalid argument provided: " ++
        "invalid output format provided. Valid options are one of short, long, yaml, or json"),
       false) := by
  unfold runE validateAnalyzer
  rw [if_neg]
  push_neg
  exact ⟨h3, h4, h1, h2⟩

/-- Closed instance of C7 at the output value "table". -/
theorem C7_invalid_output_fails_early_witness :
    runE Except.ok (fun _ => Except.ok ()) { NewOrgAnalyzer with output := "table" } =
      (Except.error ("invalid argument provided: " ++
        "invalid output format provided. Valid options are one of short, long, yaml, or json"),
       false) :=
  C7_invalid_output_fails_early { NewOrgAnalyzer with output := "table" }
    Except.ok (fun _ => Except.ok ()) (by decide) (by decide) (by decide) (by decide)

theorem sortedTotals_eq (l₁ l₂ : List OrganizationStats) (h : l₁.Perm l₂) :
    (List.insertionSort statLE l₁).map (fun x => x.totalAlerts) =
      (List.insertionSort statLE l₂).map (fun x => x.totalAlerts) := by
  apply List.eq_of_perm_of_sorted (r := (· ≤ ·))
  · exact ((List.perm_insertionSort statLE l₁).map _).trans
      ((h.map _).trans ((List.perm_insertionSort statLE l₂).map _).symm)
  · exact List.pairwise_map.mpr (List.sorted_insertionSort statLE l₁)
  · exact List.pairwise_map.mpr (List.sorted_insertionSort statLE l₂)

theorem topOrgsOfItems_totals_eq (items₁ items₂ : List (String × OrganizationStats))
    (h : items₁.Perm items₂) (n : Int) :
    (topOrgsOfItems items₁ n).map (fun x => x.totalAlerts) =
      (topOrgsOfItems items₂ n).map (fun x => x.totalAlerts) := by
  have key := sortedTotals_eq (items₁.map Prod.snd) (items₂.map Prod.snd) (h.map _)
  have hlen : (List.insertionSort statLE (items₁.map Prod.snd)).length =
      (List.insertionSort statLE (items₂.map Prod.snd)).length := by
    have h2 := congrArg List.length key
    simpa using h2
  rw [topOrgsOfItems, topOrgsOfItems, hlen]
  split_ifs with hc
  · exact key
  · rw [List.map_drop, List.map_drop, key]

/-- Two organizations tied at one alert each. -/
def osT1 : OrganizationStats :=
  { organization := { id := "t1", name := "Tied One", ebsAccountID := "e1" },
    totalAlerts := 1, clusters := [] }

/-- Two organizations tied at one alert each. -/
def osT2 : OrganizationStats :=
  { organization := { id := "t2", name := "Tied Two", ebsAccountID := "e2" },
    totalAlerts := 1, clusters := [] }

/-- C8 counterexample: on a map holding two organizations tied at one
alert each, two iteration orders the runtime may draw for two
successive `TopOrgs(1)` calls of the same unchanged state yield
different results — Go randomizes map iteration order per `range`
loop and `sort.Slice` compares only `TotalAlerts`, so re-querying is
not idempotent as claimed. -/
theorem C8_tie_order_dependence :
    ([("t1", osT1), ("t2", osT2)] : List (String × OrganizationStats)).Perm
        [("t2", osT2), ("t1", osT1)] ∧
      topOrgsOfItems [("t1", osT1), ("t2", osT2)] 1 ≠
        topOrgsOfItems [("t2", osT2), ("t1", osT1)] 1 :=
  ⟨List.Perm.swap _ _ _, by decide⟩

/-- C8 (amended): with no intervening `AddStatistic`, every query
leaves the analyzer state untouched (value receivers, no map writes),
re-running any `Calculate*` query returns the identical value, and
re-running `TopOrgs` returns the identical ascending `TotalAlerts`
sequence for any two iteration orders the runtime draws — the
returned org records themselves can differ only in which
organizations with tied totals are chosen. -/
theorem C8_requery_stable (o : OrgAnalyzer) (q : Query)
    (iter₁ iter₂ : List (String × OrganizationStats))
    (h₁ : iter₁.Perm o.stats.items) (h₂ : iter₂.Perm o.stats.items) :
    (runQueryIter o iter₁ q).2 = o ∧
    (runQueryIter (runQueryIter o iter₁ q).2 iter₂ q).1.observedTotals =
      (runQueryIter o iter₁ q).1.observedTotals := by
  cases q with
  | topOrgs n =>
    refine ⟨rfl, ?_⟩
    show Sum.inl ((topOrgsOfItems iter₂ n).map (fun x => x.totalAlerts)) =
      Sum.inl ((topOrgsOfItems iter₁ n).map (fun x => x.totalAlerts))
    rw [topOrgsOfItems_totals_eq iter₂ iter₁ (h₂.trans h₁.symm) n]
  | skipPercentage => exact ⟨rfl, rfl⟩
  | percentageOfTotal c => exact ⟨rfl, rfl⟩
  | percentageOfAnalyzed c => exact ⟨rfl, rfl⟩

/-- Closed instance of C8 on the scenario state, re-querying
`TopOrgs(1)` with the stored iteration order both times. -/
theorem C8_requery_stable_witness :
    (runQueryIter scenarioAnalyzer scenarioAnalyzer.stats.items (Query.topOrgs 1)).2 =
        scenarioAnalyzer ∧
      (runQueryIter
          (runQueryIter scenarioAnalyzer scenarioAnalyzer.stats.items (Query.topOrgs 1)).2
          scenarioAnalyzer.stats.items (Query.topOrgs 1)).1.observedTotals =
        (runQueryIter scenarioAnalyzer scenarioAnalyzer.stats.items
          (Query.topOrgs 1)).1.observedTotals :=
  C8_requery_stable scenarioAnalyzer (Query.topOrgs 1)
    scenarioAnalyzer.stats.items scenarioAnalyzer.stats.items
    (List.Perm.refl _) (List.Perm.refl _)

theorem sortedStats_sorted (s : OrganizationStatsList) : List.Sorted statLE s.sortedStats :=
  List.sorted_insertionSort statLE _

theorem sortedStats_perm (s : OrganizationStatsList) :
    s.sortedStats.Perm (s.items.map Prod.snd) :=
  List.perm_insertionSort statLE _

theorem sortedStats_length (s : OrganizationStatsList) :
    s.sortedStats.length = s.items.length := by
  rw [(sortedStats_perm s).length_eq, List.length_map]

theorem sorted_take_drop_le {l : List OrganizationStats} (h : List.Sorted statLE l) (m : ℕ)
    (x y : OrganizationStats) (hx : x ∈ l.drop m) (hy : y ∈ l.take m) :
    y.totalAlerts ≤ x.totalAlerts := by
  have hl : l.take m ++ l.drop m = l := List.take_append_drop m l
  rw [List.Sorted, ← hl] at h
  exact (List.pairwise_append.mp h).2.2 y hy x hx

theorem TopOrgs_eq (s : OrganizationStatsList) (n : Int) :
    s.TopOrgs n =
      if n ≤ 0 ∨ n > (s.sortedStats.length : Int) then s.sortedStats
      else s.sortedStats.drop (s.sortedStats.length - n.toNat) := rfl

/-- C2: `TopOrgs(n)` always returns a list sorted ascending by
`TotalAlerts`; for `n ≤ 0` or `n ≥` the number of organizations it is
a permutation of all organizations (so all are returned, ascending);
for `0 < n <` the count it returns exactly the last `n` entries of
the ascending sort, so every returned total is ≥ every non-returned
total; and with zero organizations it is empty for every `n`. -/
theorem C2_topOrgs_spec (s : OrganizationStatsList) (n : Int) :
    List.Sorted statLE (s.TopOrgs n) ∧
    ((n ≤ 0 ∨ (s.items.length : Int) ≤ n) →
      (s.TopOrgs n).Perm (s.items.map Prod.snd)) ∧
    (0 < n → n < (s.items.length : Int) →
      (s.TopOrgs n).length = n.toNat ∧
      s.TopOrgs n = s.sortedStats.drop (s.sortedStats.length - n.toNat) ∧
      ∀ x ∈ s.TopOrgs n, ∀ y ∈ s.sortedStats.take (s.sortedStats.length - n.toNat),
        y.totalAlerts ≤ x.totalAlerts) ∧
    (s.items = [] → s.TopOrgs n = []) := by
  have hsort := sortedStats_sorted s
  have hperm := sortedStats_perm s
  have hlen := sortedStats_length s
  rw [TopOrgs_eq]
  by_cases hc : n ≤ 0 ∨ n > (s.sortedStats.length : Int)
  · rw [if_pos hc]
    refine ⟨hsort, fun _ => hperm, ?_, ?_⟩
    · intro hn1 hn2
      exfalso
      rcases hc with hc | hc
      · exact absurd hn1 hc.not_lt
      · rw [hlen] at hc
        exact absurd hn2 hc.asymm
    · intro hempty
      have h0 : s.sortedStats.length = 0 := by rw [hlen, hempty]; rfl
      exact List.length_eq_zero.mp h0
  · rw [if_neg hc]
    push_neg at hc
    obtain ⟨hn0, hnlen⟩ := hc
    refine ⟨?_, ?_, ?_, ?_⟩
    · exact hsort.sublist (List.drop_sublist _ _)
    · intro h
      have hz : s.sortedStats.length - n.toNat = 0 := by
        rcases h with h | h
        · exact absurd hn0 h.not_lt
        · rw [hlen]
          omega
      rw [hz, List.drop_zero]
      exact hperm
    · intro hn1 hn2
      rw [hlen] at hnlen ⊢
      refine ⟨?_, rfl, ?_⟩
      · rw [List.length_drop, hlen]
        omega
      · intro x hx y hy
        exact sorted_take_drop_le hsort _ x y hx hy
    · intro hempty
      have h0 : s.sortedStats = [] := by
        apply List.length_eq_zero.mp
        rw [hlen, hempty]
        rfl
      rw [h0]
      simp

/-- Closed instance of C2 on the scenario state (two organizations,
`n = 1`): exactly one organization returned, and its total dominates
the non-returned one. -/
theorem C2_topOrgs_spec_witness :
    (0 : Int) < 1 ∧ (1 : Int) < (scenarioAnalyzer.stats.items.length : Int) ∧
    ((scenarioAnalyzer.stats.TopOrgs 1).length = (1 : Int).toNat ∧
     scenarioAnalyzer.stats.TopOrgs 1 =
       scenarioAnalyzer.stats.sortedStats.drop
         (scenarioAnalyzer.stats.sortedStats.length - (1 : Int).toNat) ∧
     ∀ x ∈ scenarioAnalyzer.stats.TopOrgs 1,
       ∀ y ∈ scenarioAnalyzer.stats.sortedStats.take
         (scenarioAnalyzer.stats.sortedStats.length - (1 : Int).toNat),
         y.totalAlerts ≤ x.totalAlerts) :=
  ⟨by norm_num, by decide,
   (C2_topOrgs_spec scenarioAnalyzer.stats 1).2.2.1 (by norm_num) (by decide)⟩

theorem TopClusters_eq (o : OrganizationStats) (n : Int) :
    o.TopClusters n =
      (if 0 ≤ ((List.insertionSort clusterLE (o.clusters.map Prod.snd)).length : Int) - n ∧
          ((List.insertionSort clusterLE (o.clusters.map Prod.snd)).length : Int) - n ≤
            ((List.insertionSort clusterLE (o.clusters.map Prod.snd)).length : Int) then
        some ((List.insertionSort clusterLE (o.clusters.map Prod.snd)).drop
          (((List.insertionSort clusterLE (o.clusters.map Prod.snd)).length : Int) - n).toNat)
      else none) := rfl

/-- C9: `TopClusters(n)` succeeds exactly when `0 ≤ n ≤` the number
of clusters: for `n` above the cluster count the slice lower bound
`len(stats) - n` is negative and the call panics (embedded as
`none`), and `TopClusters(0)` returns the empty list, not all
clusters. -/
theorem C9_topClusters_bounds (o : OrganizationStats) (n : Int) :
    ((o.TopClusters n).isSome ↔ (0 ≤ n ∧ n ≤ (o.clusters.length : Int))) ∧
    ((o.clusters.length : Int) < n → o.TopClusters n = none) ∧
    (o.TopClusters 0 = some []) := by
  have hlen : (List.insertionSort clusterLE (o.clusters.map Prod.snd)).length =
      o.clusters.length := by
    rw [(List.perm_insertionSort clusterLE _).length_eq, List.length_map]
  refine ⟨?_, ?_, ?_⟩
  · rw [TopClusters_eq]
    split_ifs with hc
    · simp only [Option.isSome_some, true_iff]
      rw [hlen] at hc
      omega
    · simp only [Option.isSome_none, Bool.false_eq_true, false_iff]
      rw [hlen] at hc
      omega
  · intro h
    rw [TopClusters_eq, if_neg]
    rw [hlen]
    omega
  · rw [TopClusters_eq, if_pos]
    · congr 1
      rw [Int.sub_zero, Int.toNat_natCast, List.drop_length]
    · rw [Int.sub_zero]
      exact ⟨Int.natCast_nonneg _, le_refl _⟩

/-- Closed instance of C9: on the two-cluster organization record of
the scenario, `TopClusters 5` panics (out-of-range slice bound). -/
theorem C9_topClusters_bounds_witness :
    ((osA3.clusters.length : Int) < 5) ∧ osA3.TopClusters 5 = none :=
  ⟨by decide, (C9_topClusters_bounds osA3 5).2.1 (by decide)⟩

/-- C5: with a non-empty `SearchRegex`, an entry whose resolved
organization name and ID both evaluate to non-matches is discarded
with `TotalEntries` incremented but `SkippedEntries` and the stats
untouched, while an entry whose pattern evaluation itself fails (on
the name, or on the ID after the name evaluated) is discarded with
`SkippedEntries` incremented and the stats untouched; in both cases
the loop goes on to process the remaining entries. -/
theorem C5_regex_filter (m : String → Except Unit Bool) (o : OrgAnalyzer)
    (org : Organization) (cluster : Cluster) (alert : String) (rest : List EntryOutcome)
    (hregex : o.searchRegex ≠ "") :
    ((m org.name = Except.ok false ∧ m org.id = Except.ok false) →
      (processEntry m o (EntryOutcome.resolved org cluster alert)).skippedEntries =
          o.skippedEntries ∧
      (processEntry m o (EntryOutcome.resolved org cluster alert)).stats = o.stats ∧
      (processEntry m o (EntryOutcome.resolved org cluster alert)).totalEntries =
          o.totalEntries + 1) ∧
    ((m org.name = Except.error () ∨
        (∃ b, m org.name = Except.ok b ∧ m org.id = Except.error ())) →
      (processEntry m o (EntryOutcome.resolved org cluster alert)).skippedEntries =
          o.skippedEntries + 1 ∧
      (processEntry m o (EntryOutcome.resolved org cluster alert)).stats = o.stats) ∧
    analyzeEntries m o (EntryOutcome.resolved org cluster alert :: rest) =
      analyzeEntries m (processEntry m o (EntryOutcome.resolved org cluster alert)) rest := by
  refine ⟨?_, ?_, rfl⟩
  · intro ⟨h1, h2⟩
    simp [processEntry, hregex, h1, h2]
  · intro h
    rcases h with h | ⟨b, hb, hid⟩
    · simp [processEntry, hregex, h]
    · simp [processEntry, hregex, hb, hid]

/-- Analyzer with a non-empty search pattern and fresh counters. -/
def filterAnalyzer : OrgAnalyzer :=
  { NewOrgAnalyzer with searchRegex := "pattern" }

/-- Matcher that evaluates cleanly to a non-match on every string. -/
def okFalseMatcher : String → Except Unit Bool := fun _ => Except.ok false

/-- Matcher whose evaluation fails on every string, as
`regexp.MatchString` does for an invalid pattern. -/
def errMatcher : String → Except Unit Bool := fun _ => Except.error ()

/-- Closed instance of C5: a clean double non-match leaves the skip
counter and stats alone, and a failing evaluation bumps the skip
counter. -/
theorem C5_regex_filter_witness :
    ((processEntry okFalseMatcher filterAnalyzer
        (EntryOutcome.resolved orgA clusterX "AlertFoo")).skippedEntries =
          filterAnalyzer.skippedEntries ∧
     (processEntry okFalseMatcher filterAnalyzer
        (EntryOutcome.resolved orgA clusterX "AlertFoo")).stats = filterAnalyzer.stats ∧
     (processEntry okFalseMatcher filterAnalyzer
        (EntryOutcome.resolved orgA clusterX "AlertFoo")).totalEntries =
          filterAnalyzer.totalEntries + 1) ∧
    ((processEntry errMatcher filterAnalyzer
        (EntryOutcome.resolved orgA clusterX "AlertFoo")).skippedEntries =
          filterAnalyzer.skippedEntries + 1 ∧
     (processEntry errMatcher filterAnalyzer
        (EntryOutcome.resolved orgA clusterX "AlertFoo")).stats = filterAnalyzer.stats) :=
  ⟨(C5_regex_filter okFalseMatcher filterAnalyzer orgA clusterX "AlertFoo" []
      (by decide)).1 ⟨rfl, rfl⟩,
   (C5_regex_filter errMatcher filterAnalyzer orgA clusterX "AlertFoo" []
      (by decide)).2.1 (Or.inl rfl)⟩

end Analyze
